import Mathlib

/-!
Verification of the FoalTS authentication core and REST error routing.

The development shallowly embeds:
* the credential schema validator, the stored-digest parser/verifier
  (`pbkdf2_sha256` family) and the `AbstractEmailAuthenticator.authenticate`
  orchestrator (packages/password, packages/core);
* the `RestController` by-id operations (packages/core/src/common/controllers/rest.controller.ts);
* the example `AuthController.login` endpoint (packages/examples/src/app/controllers/auth.controller.ts).

The implementations of `validate`, `verifyPassword` and `authenticate` are not
part of the source sample (only their test file
`packages/password/src/email-authenticator.service.spec.ts` is), so those
definitions are modelled from the specification (sections 4.1, 4.2, 4.3 and 6),
kept consistent with the exact fixtures and literal strings of the test file.
-/

namespace Foal

/-! ## Generic character-level string splitting

JavaScript's `String.prototype.split` with a one-character separator: the
result always has one more element than the number of separator occurrences. -/

/-- Splits a character list on the separator; `acc` holds the (reversed)
characters of the current segment. -/
def splitOnCharAux (sep : Char) : List Char → List Char → List (List Char)
  | [], acc => [acc.reverse]
  | c :: rest, acc =>
    if c = sep then acc.reverse :: splitOnCharAux sep rest []
    else splitOnCharAux sep rest (c :: acc)

/-- String-level wrapper of `splitOnCharAux`. -/
def splitOnChar (sep : Char) (s : String) : List String :=
  (splitOnCharAux sep s.data []).map (fun cs => String.mk cs)

/-! ## Credentials: an untyped key/value object -/

/-- Modelled from the spec: the raw credentials are "an untyped key/value
structure supplied by the caller" (section 3). A field value is a string or a
value of some other JSON type (the validator only distinguishes strings from
non-strings). -/
inductive Value where
  | vstr (s : String)
  | vnum (n : Int)
  | vbool (b : Bool)
  | vnull
deriving DecidableEq, Repr

/-- A raw credentials object: an ordered list of key/value fields. -/
abbrev Credentials := List (String × Value)

/-- Looks up the first field with the given key, as JavaScript property
access on an object does. -/
def lookupField (creds : Credentials) (k : String) : Option Value :=
  (creds.find? (fun p => p.1 = k)).map (fun p => p.2)

/-- Extracts a field known to hold a string. -/
def getStrField (creds : Credentials) (k : String) : Option String :=
  match lookupField creds k with
  | some (Value.vstr s) => some s
  | _ => none

/-! ## Validation violations -/

/-- Modelled from the spec: one structured schema-failure entry, with exactly
the field names `dataPath`, `keyword`, `message`, `params`, `schemaPath`
(section 6, "Validation error payload"). `params` is the keyword-specific
parameter object, modelled as key/value string pairs. -/
structure Violation where
  dataPath : String
  keyword : String
  message : String
  params : List (String × String)
  schemaPath : String
deriving DecidableEq, Repr

/-- The violation produced for a missing required property `k`, with the
literal message of the test fixtures. -/
def requiredViolation (k : String) : Violation :=
  { dataPath := ""
    keyword := "required"
    message := "should have required property \x27" ++ k ++ "\x27"
    params := [("missingProperty", k)]
    schemaPath := "#/required" }

/-- The violation produced when property `k` is present but not a string. -/
def typeViolation (k : String) : Violation :=
  { dataPath := "." ++ k
    keyword := "type"
    message := "should be string"
    params := [("type", "string")]
    schemaPath := "#/properties/" ++ k ++ "/type" }

/-- The violation produced when the email property is a string that does not
match the email format. -/
def formatEmailViolation : Violation :=
  { dataPath := ".email"
    keyword := "format"
    message := "should match format \"email\""
    params := [("format", "email")]
    schemaPath := "#/properties/email/format" }

/-- The violation produced for an extra key `k` beyond `email`/`password`. -/
def additionalViolation (k : String) : Violation :=
  { dataPath := ""
    keyword := "additionalProperties"
    message := "should NOT have additional properties"
    params := [("additionalProperty", k)]
    schemaPath := "#/additionalProperties" }

/-! ## Credential schema validator -/

/-- Modelled from the spec: an email address format is local-part `@` domain
with at least one dot-separated domain label (section 4.1); the fixture
`"johnjack.com"` (no `@`) must fail and `"john@jack.com"` must pass. -/
def isEmailFormat (s : String) : Bool :=
  match splitOnChar '@' s with
  | [localPart, domain] =>
    localPart ≠ "" && (splitOnChar '.' domain).length ≥ 2 &&
      (splitOnChar '.' domain).all (fun label => label ≠ "")
  | _ => false

/-- Modelled from the spec: the violations contributed by the `email` rules -
required, string-typed, email format (section 4.1). -/
def emailViolations (creds : Credentials) : List Violation :=
  match lookupField creds "email" with
  | none => [requiredViolation "email"]
  | some (Value.vstr s) => if isEmailFormat s then [] else [formatEmailViolation]
  | some _ => [typeViolation "email"]

/-- Modelled from the spec: the violations contributed by the `password`
rules - required, string-typed, no format constraint (section 4.1). -/
def passwordViolations (creds : Credentials) : List Violation :=
  match lookupField creds "password" with
  | none => [requiredViolation "password"]
  | some (Value.vstr _) => []
  | some _ => [typeViolation "password"]

/-- Modelled from the spec: one violation per extra key beyond
`email`/`password`, naming that key (section 4.1). -/
def extraViolations (creds : Credentials) : List Violation :=
  (creds.filter (fun p => p.1 ≠ "email" && p.1 ≠ "password")).map
    (fun p => additionalViolation p.1)

/-- Modelled from the spec: the rules are evaluated independently and all
violations are collected, not just the first (section 4.1). -/
def collectViolations (creds : Credentials) : List Violation :=
  emailViolations creds ++ passwordViolations creds ++ extraViolations creds

/-- Modelled from the spec: `validate(raw)` returns the input unchanged on
zero violations and otherwise fails with a `ValidationError` whose payload is
the ordered violation list (section 4.1). The implementation
`AbstractEmailAuthenticator.validate` is not under the source sample; the
shapes of the violations follow its test file. -/
def validate (creds : Credentials) : Except (List Violation) Credentials :=
  match collectViolations creds with
  | [] => Except.ok creds
  | errs => Except.error errs

/-! ## Digest format parser and password verifier -/

/-- Modelled from the spec: a closed tagged variant over "known-and-supported"
(with iteration count, salt and hash segments), "known-but-malformed" and
"unknown" (section 9, design notes). -/
inductive DigestClass where
  | supported (iters salt hash : String)
  | malformedPbkdf2
  | unsupported
deriving DecidableEq, Repr

/-- Modelled from the spec: the closed classification of a stored digest into
known-and-supported, known-but-malformed and unknown (section 9, design
notes), applied to the `$`-separated segments. Segment 0 is the algorithm
identifier; a string with no separator at all is unsupported even when that
sole segment names the supported family (section 4.2, step 2). -/
def classifySegments : List String → DigestClass
  | [a, iters, salt, hash] =>
    if a = "pbkdf2_sha256" then DigestClass.supported iters salt hash
    else DigestClass.unsupported
  | [_] => DigestClass.unsupported
  | a :: _ =>
    if a = "pbkdf2_sha256" then DigestClass.malformedPbkdf2
    else DigestClass.unsupported
  | [] => DigestClass.unsupported

/-- Classifies a stored digest string by splitting it on `$`. -/
def classifyDigest (stored : String) : DigestClass :=
  classifySegments (splitOnChar '$' stored)

/-- Modelled from the spec: string comparison that does not short-circuit on
the first differing byte (section 4.2, step 4): the whole zipped list is
folded regardless of where a mismatch occurs. -/
def constantTimeEq (a b : String) : Bool :=
  decide (a.data.length = b.data.length) &&
    (a.data.zip b.data).foldl (fun acc p => acc && decide (p.1 = p.2)) true

/-- Modelled from the spec: `verify(secretPlaintext, storedDigest)` returns
the boolean comparison result for a well-formed supported digest, and fails
with the exact literal error strings of section 6 otherwise. The key
derivation itself (`crypto.pbkdf2`) is outside the source sample and is
abstracted as `kdf plain iterations salt`, returning the hex digest to
compare against the stored hash segment. -/
def verifyPassword (kdf : String → String → String → String)
    (plain stored : String) : Except String Bool :=
  match classifyDigest stored with
  | DigestClass.unsupported =>
    Except.error "Password format is incorrect or not supported."
  | DigestClass.malformedPbkdf2 =>
    Except.error "Password format is incorrect (pbkdf2)."
  | DigestClass.supported iters salt hash =>
    Except.ok (constantTimeEq (kdf plain iters salt) hash)

/-! ## Principal records and the authenticator -/

/-- A principal (user) record, with the fields of the `User` entity of the
authenticator's test file: id, email, stored password digest, roles and the
application attribute `username`. -/
structure UserRec where
  id : Nat
  email : String
  password : String
  roles : List String
  username : String
deriving DecidableEq, Repr

/-- The three-way outcome of one authentication attempt plus the validation
failure: matched principal, uniform negative result (`null`), propagated
stored-format error, or validation error (spec section 7). -/
inductive AuthResult where
  | principal (u : UserRec)
  | noMatch
  | formatError (msg : String)
  | validationError (errs : List Violation)
deriving DecidableEq, Repr

/-- Modelled from the spec: `authenticate(rawCredentials)` validates, looks up
at most one principal whose email equals the validated identifier, verifies
the secret against the stored digest, and returns the principal on a match,
`null` on "no candidate" or "mismatch", and propagates a verifier format
error unchanged (section 4.3). The lookup collaborator is the parameter
`findByEmail`; after successful validation both fields are present strings,
so the final fallback arm is unreachable. -/
def authenticate (kdf : String → String → String → String)
    (findByEmail : String → Option UserRec) (creds : Credentials) : AuthResult :=
  match validate creds with
  | Except.error errs => AuthResult.validationError errs
  | Except.ok validated =>
    match getStrField validated "email", getStrField validated "password" with
    | some email, some secret =>
      match findByEmail email with
      | none => AuthResult.noMatch
      | some u =>
        match verifyPassword kdf secret u.password with
        | Except.error msg => AuthResult.formatError msg
        | Except.ok true => AuthResult.principal u
        | Except.ok false => AuthResult.noMatch
    | _, _ => AuthResult.noMatch

/-- Running the same attempt twice against the same stored state. -/
def authenticateTwice (kdf : String → String → String → String)
    (findByEmail : String → Option UserRec) (creds : Credentials) :
    AuthResult × AuthResult :=
  (authenticate kdf findByEmail creds, authenticate kdf findByEmail creds)

/-! ## RestController (packages/core/src/common/controllers/rest.controller.ts)

The by-id operations are generic in the collection's query base type `Q`, the
request body type `B`, the resolved content type `C` and the thrown error
type `E`; `isODNE` embeds the `isObjectDoesNotExist` check. A collection
method is `none` when the concrete collection leaves it undefined, and an
invoked method either resolves with content or rejects with an error. -/

/-- The outcome of awaiting a collection method: the promise resolves with
content or rejects with an error. -/
inductive MethodOutcome (C E : Type) where
  | resolves (content : C)
  | rejects (err : E)
deriving DecidableEq, Repr

/-- The HTTP response constructors used by `RestController`. -/
inductive HttpResponse (C : Type) where
  | ok (content : C)
  | created (content : C)
  | notFound
  | notImplemented
  | methodNotAllowed
deriving DecidableEq, Repr

/-- The outcome of awaiting a controller method: a returned response, or a
rethrown (propagated) error. -/
inductive ActionResult (C E : Type) where
  | response (r : HttpResponse C)
  | rejected (err : E)
deriving DecidableEq, Repr

/-- The part of the request context the by-id operations read:
`ctx.request.params.id` and `ctx.request.body`. -/
structure Context (B : Type) where
  paramsId : Nat
  body : B
deriving DecidableEq, Repr

/-- The query object `\x7b ...this.getQuery(ctx), id: ctx.request.params.id \x7d`
built by every by-id operation. -/
structure IdQuery (Q : Type) where
  base : Q
  id : Nat
deriving DecidableEq, Repr

/-- Embeds `RestController.deleteById`: not implemented when
`collection.removeOne` is undefined; otherwise `HttpResponseOK` on resolve,
`HttpResponseNotFound` when the method rejects an `ObjectDoesNotExist`, and
the error is rethrown unchanged otherwise. -/
def deleteById {B Q C E : Type} (isODNE : E → Bool) (getQuery : Context B → Q)
    (removeOne : Option (IdQuery Q → MethodOutcome C E)) (ctx : Context B) :
    ActionResult C E :=
  match removeOne with
  | none => ActionResult.response HttpResponse.notImplemented
  | some remove =>
    match remove ⟨getQuery ctx, ctx.paramsId⟩ with
    | MethodOutcome.resolves content => ActionResult.response (HttpResponse.ok content)
    | MethodOutcome.rejects err =>
      if isODNE err then ActionResult.response HttpResponse.notFound
      else ActionResult.rejected err

/-- Embeds `RestController.getById`, identical control flow over
`collection.findOne`. -/
def getById {B Q C E : Type} (isODNE : E → Bool) (getQuery : Context B → Q)
    (findOne : Option (IdQuery Q → MethodOutcome C E)) (ctx : Context B) :
    ActionResult C E :=
  match findOne with
  | none => ActionResult.response HttpResponse.notImplemented
  | some find =>
    match find ⟨getQuery ctx, ctx.paramsId⟩ with
    | MethodOutcome.resolves content => ActionResult.response (HttpResponse.ok content)
    | MethodOutcome.rejects err =>
      if isODNE err then ActionResult.response HttpResponse.notFound
      else ActionResult.rejected err

/-- Embeds `RestController.patchById`: `collection.updateOne` is called with
the id query and the request body. -/
def patchById {B Q C E : Type} (isODNE : E → Bool) (getQuery : Context B → Q)
    (updateOne : Option (IdQuery Q → B → MethodOutcome C E)) (ctx : Context B) :
    ActionResult C E :=
  match updateOne with
  | none => ActionResult.response HttpResponse.notImplemented
  | some update =>
    match update ⟨getQuery ctx, ctx.paramsId⟩ ctx.body with
    | MethodOutcome.resolves content => ActionResult.response (HttpResponse.ok content)
    | MethodOutcome.rejects err =>
      if isODNE err then ActionResult.response HttpResponse.notFound
      else ActionResult.rejected err

/-- Embeds `RestController.putById`, whose body is identical to
`patchById`. -/
def putById {B Q C E : Type} (isODNE : E → Bool) (getQuery : Context B → Q)
    (updateOne : Option (IdQuery Q → B → MethodOutcome C E)) (ctx : Context B) :
    ActionResult C E :=
  match updateOne with
  | none => ActionResult.response HttpResponse.notImplemented
  | some update =>
    match update ⟨getQuery ctx, ctx.paramsId⟩ ctx.body with
    | MethodOutcome.resolves content => ActionResult.response (HttpResponse.ok content)
    | MethodOutcome.rejects err =>
      if isODNE err then ActionResult.response HttpResponse.notFound
      else ActionResult.rejected err

/-! ## AuthController.login (packages/examples/src/app/controllers/auth.controller.ts) -/

/-- An `HttpResponseRedirect` with its optional session cookie (set via
`setSessionCookie` on the success path only). -/
structure Redirect where
  location : String
  sessionCookie : Option String
deriving DecidableEq, Repr

/-- The outcome of `AuthController.login`: a redirect response, or a
rejected error propagated from `verifyPassword`. -/
inductive LoginResult where
  | response (r : Redirect)
  | rejected (msg : String)
deriving DecidableEq, Repr

/-- Embeds `AuthController.login`: looks up the user by the request body's
email; redirects to `/login?invalid_credentials=true` when no user is found
or when `verifyPassword` reports a mismatch; on a verified match, creates a
session (abstracted by `sessionToken`), sets the session cookie and redirects
to `/`. An error thrown by `verifyPassword` propagates. -/
def login (kdf : String → String → String → String)
    (findUser : String → Option UserRec) (sessionToken : UserRec → String)
    (email password : String) : LoginResult :=
  match findUser email with
  | none => LoginResult.response ⟨"/login?invalid_credentials=true", none⟩
  | some user =>
    match verifyPassword kdf password user.password with
    | Except.error msg => LoginResult.rejected msg
    | Except.ok false => LoginResult.response ⟨"/login?invalid_credentials=true", none⟩
    | Except.ok true => LoginResult.response ⟨"/", some (sessionToken user)⟩

deriving instance DecidableEq for Except

/-! ## Concrete fixtures, mirroring the authenticator's test file -/

/-- A concrete key-derivation function used to instantiate the abstract
`kdf` parameter in closed statements. -/
def kdfDemo : String → String → String → String :=
  fun plain iters salt => plain ++ "#" ++ iters ++ "#" ++ salt

/-- A user whose stored digest is well-formed for `kdfDemo` and matches the
secret `"foobar"`. -/
def johnRec : UserRec :=
  { id := 1
    email := "john@foalts.org"
    password := "pbkdf2_sha256$100000$c678$foobar#100000#c678"
    roles := []
    username := "John" }

/-- A user whose stored digest has no recognized algorithm identifier and no
separator, as in the test fixture. -/
def jackRec : UserRec :=
  { id := 2
    email := "jack@foalts.org"
    password := "bcrypt_mypassword"
    roles := []
    username := "Jack" }

/-- A user whose stored digest has the recognized family prefix but malformed
parameter segments, as in the test fixture. -/
def samRec : UserRec :=
  { id := 3
    email := "sam@foalts.org"
    password := "pbkdf2_sha256$hello_world"
    roles := []
    username := "Sam" }

/-- Valid credentials carrying the matching secret. -/
def credsGood : Credentials :=
  [("email", Value.vstr "john@foalts.org"), ("password", Value.vstr "foobar")]

/-- Valid credentials carrying a wrong secret. -/
def credsWrong : Credentials :=
  [("email", Value.vstr "john@foalts.org"), ("password", Value.vstr "wrongPassword")]

/-- Credentials violating three independent rules at once: the email is
missing, the password has the wrong type and `foo` is an extra key. -/
def credsMulti : Credentials :=
  [("password", Value.vbool true), ("foo", Value.vstr "bar")]

/-- The ordered violation payload produced for `credsMulti`. -/
def errsMulti : List Violation :=
  [requiredViolation "email", typeViolation "password", additionalViolation "foo"]

/-- A concrete session-token factory used to instantiate the abstract
session collaborator in closed statements. -/
def sessionTokenDemo : UserRec → String := fun u => u.username ++ "-token"

/-- A collection method that always rejects an `ObjectDoesNotExist` error
(the error type is `Bool`, `true` meaning `ObjectDoesNotExist`). -/
def rejectsODNE : IdQuery Unit → MethodOutcome Unit Bool :=
  fun _ => MethodOutcome.rejects true

/-- A collection method that always rejects a different error. -/
def rejectsOther : IdQuery Unit → MethodOutcome Unit Bool :=
  fun _ => MethodOutcome.rejects false

/-- A two-argument collection method that always rejects an
`ObjectDoesNotExist` error. -/
def rejectsODNEBody : IdQuery Unit → Unit → MethodOutcome Unit Bool :=
  fun _ _ => MethodOutcome.rejects true

/-- A two-argument collection method that always rejects a different
error. -/
def rejectsOtherBody : IdQuery Unit → Unit → MethodOutcome Unit Bool :=
  fun _ _ => MethodOutcome.rejects false

/-- The trivial `getQuery`, as in the base `RestController`. -/
def unitQuery : Context Unit → Unit := fun _ => ()

/-- A concrete request context. -/
def ctxDemo : Context Unit := ⟨1, ()⟩

/-! ## Helper lemmas -/

/-- A segment list whose head is not the supported family identifier, or with
a single segment (no separator), classifies as unsupported. -/
theorem classifySegments_unsupported (l : List String)
    (h : l.head? ≠ some "pbkdf2_sha256" ∨ l.length = 1) :
    classifySegments l = DigestClass.unsupported := by
  match l with
  | [] => rfl
  | [a] => simp [classifySegments]
  | [a, b] =>
    rcases h with h | h
    · simp at h
      simp [classifySegments, h]
    · simp at h
  | [a, b, c] =>
    rcases h with h | h
    · simp at h
      simp [classifySegments, h]
    · simp at h
  | [a, b, c, d] =>
    rcases h with h | h
    · simp at h
      simp [classifySegments, h]
    · simp at h
  | a :: b :: c :: d :: e :: rest =>
    rcases h with h | h
    · simp at h
      simp [classifySegments, h]
    · simp at h

/-- A segment list headed by the supported family identifier with at least
one separator but the wrong arity classifies as known-but-malformed. -/
theorem classifySegments_malformed (l : List String)
    (hhead : l.head? = some "pbkdf2_sha256") (hlen2 : 2 ≤ l.length)
    (hlen4 : l.length ≠ 4) :
    classifySegments l = DigestClass.malformedPbkdf2 := by
  match l with
  | [] => simp at hhead
  | [a] => simp at hlen2
  | [a, b] =>
    simp at hhead
    simp [classifySegments, hhead]
  | [a, b, c] =>
    simp at hhead
    simp [classifySegments, hhead]
  | [a, b, c, d] => simp at hlen4
  | a :: b :: c :: d :: e :: rest =>
    simp at hhead
    simp [classifySegments, hhead]

/-- Folding the non-short-circuiting comparison over a self-zip never leaves
the accumulator. -/
theorem foldl_and_self_zip (l : List Char) (acc : Bool) :
    (l.zip l).foldl (fun acc p => acc && decide (p.1 = p.2)) acc = acc := by
  induction l generalizing acc with
  | nil => rfl
  | cons c rest ih =>
    simp only [List.zip_cons_cons, List.foldl_cons]
    rw [ih]
    simp

/-- The constant-time comparison is reflexive. -/
theorem constantTimeEq_self (a : String) : constantTimeEq a a = true := by
  simp [constantTimeEq, foldl_and_self_zip]

/-! ## Claims about the authenticator -/

/-- Claim C1: uniform negative result - `authenticate` returns `null`
(`AuthResult.noMatch`) both when the lookup collaborator finds no principal
for the validated email and when a principal is found but the supplied secret
fails verification against its stored digest; the two returned values are
identical, so the two causes are indistinguishable. -/
theorem authenticate_uniform_negative
    (kdf : String → String → String → String)
    (lookupA lookupB : String → Option UserRec)
    (creds : Credentials) (email secret : String) (u : UserRec)
    (hval : validate creds = Except.ok creds)
    (hemail : getStrField creds "email" = some email)
    (hsecret : getStrField creds "password" = some secret)
    (hA : lookupA email = none)
    (hB : lookupB email = some u)
    (hmismatch : verifyPassword kdf secret u.password = Except.ok false) :
    authenticate kdf lookupA creds = AuthResult.noMatch ∧
    authenticate kdf lookupB creds = AuthResult.noMatch ∧
    authenticate kdf lookupA creds = authenticate kdf lookupB creds := by
  refine ⟨?_, ?_, ?_⟩ <;>
    simp [authenticate, hval, hemail, hsecret, hA, hB, hmismatch]

/-- Witness for C1 at concrete inputs: an absent principal and a present
principal with a mismatching secret both yield `noMatch`. -/
theorem authenticate_uniform_negative_witness :
    authenticate kdfDemo (fun _ => none) credsWrong = AuthResult.noMatch ∧
    authenticate kdfDemo (fun _ => some johnRec) credsWrong = AuthResult.noMatch ∧
    authenticate kdfDemo (fun _ => none) credsWrong =
      authenticate kdfDemo (fun _ => some johnRec) credsWrong :=
  authenticate_uniform_negative kdfDemo (fun _ => none) (fun _ => some johnRec)
    credsWrong "john@foalts.org" "wrongPassword" johnRec (by decide) (by decide)
    (by decide) rfl rfl (by decide)

/-- Claim C2: for every stored digest whose first `$`-segment is not the
recognized algorithm identifier, or that contains no separator at all (a
single segment), `authenticate` fails with the exact error message
"Password format is incorrect or not supported." rather than returning
null. -/
theorem authenticate_unsupported_digest_rejects
    (kdf : String → String → String → String)
    (lookupU : String → Option UserRec)
    (creds : Credentials) (email secret : String) (u : UserRec)
    (hval : validate creds = Except.ok creds)
    (hemail : getStrField creds "email" = some email)
    (hsecret : getStrField creds "password" = some secret)
    (hu : lookupU email = some u)
    (hfmt : (splitOnChar '$' u.password).head? ≠ some "pbkdf2_sha256" ∨
      (splitOnChar '$' u.password).length = 1) :
    authenticate kdf lookupU creds =
      AuthResult.formatError "Password format is incorrect or not supported." := by
  have hclass : classifyDigest u.password = DigestClass.unsupported :=
    classifySegments_unsupported _ hfmt
  simp [authenticate, hval, hemail, hsecret, hu, verifyPassword, hclass]

/-- Witness for C2 at the test fixture: the digest `"bcrypt_mypassword"` has
no separator and no recognized identifier, and authentication rejects with
the generic format error. -/
theorem authenticate_unsupported_digest_rejects_witness :
    authenticate kdfDemo (fun _ => some jackRec) credsGood =
      AuthResult.formatError "Password format is incorrect or not supported." :=
  authenticate_unsupported_digest_rejects kdfDemo (fun _ => some jackRec)
    credsGood "john@foalts.org" "foobar" jackRec (by decide) (by decide)
    (by decide) rfl (Or.inl (by decide))

/-- Claim C3: for every stored digest whose first `$`-segment is the
recognized `pbkdf2_sha256` identifier but whose remaining segments have the
wrong arity (at least one separator, yet not the four-segment shape),
`authenticate` fails with the family-specific error message
"Password format is incorrect (pbkdf2).", distinct from the generic one. -/
theorem authenticate_malformed_pbkdf2_rejects
    (kdf : String → String → String → String)
    (lookupU : String → Option UserRec)
    (creds : Credentials) (email secret : String) (u : UserRec)
    (hval : validate creds = Except.ok creds)
    (hemail : getStrField creds "email" = some email)
    (hsecret : getStrField creds "password" = some secret)
    (hu : lookupU email = some u)
    (hhead : (splitOnChar '$' u.password).head? = some "pbkdf2_sha256")
    (hlen2 : 2 ≤ (splitOnChar '$' u.password).length)
    (hlen4 : (splitOnChar '$' u.password).length ≠ 4) :
    authenticate kdf lookupU creds =
      AuthResult.formatError "Password format is incorrect (pbkdf2)." := by
  have hclass : classifyDigest u.password = DigestClass.malformedPbkdf2 :=
    classifySegments_malformed _ hhead hlen2 hlen4
  simp [authenticate, hval, hemail, hsecret, hu, verifyPassword, hclass]

/-- Witness for C3 at the test fixture: the digest
`"pbkdf2_sha256$hello_world"` has the recognized family prefix and malformed
segments, and authentication rejects with the pbkdf2-specific error. -/
theorem authenticate_malformed_pbkdf2_rejects_witness :
    authenticate kdfDemo (fun _ => some samRec) credsGood =
      AuthResult.formatError "Password format is incorrect (pbkdf2)." :=
  authenticate_malformed_pbkdf2_rejects kdfDemo (fun _ => some samRec)
    credsGood "john@foalts.org" "foobar" samRec (by decide) (by decide)
    (by decide) rfl (by decide) (by decide) (by decide)

/-- Claim C4: when the stored digest is a well-formed
`pbkdf2_sha256$iterations$salt$hash` digest and the supplied secret verifies
by recomputation, `authenticate` returns the looked-up principal record in
full and unmodified, with all its stored fields. -/
theorem authenticate_match_returns_principal
    (kdf : String → String → String → String)
    (lookupU : String → Option UserRec)
    (creds : Credentials) (email secret : String) (u : UserRec)
    (iters salt hash : String)
    (hval : validate creds = Except.ok creds)
    (hemail : getStrField creds "email" = some email)
    (hsecret : getStrField creds "password" = some secret)
    (hu : lookupU email = some u)
    (hclass : classifyDigest u.password = DigestClass.supported iters salt hash)
    (hkdf : kdf secret iters salt = hash) :
    authenticate kdf lookupU creds = AuthResult.principal u := by
  have hverify : verifyPassword kdf secret u.password = Except.ok true := by
    simp [verifyPassword, hclass, hkdf, constantTimeEq_self]
  simp [authenticate, hval, hemail, hsecret, hu, hverify]

/-- Witness for C4 at a concrete well-formed digest whose hash segment equals
the recomputation: the full user record is returned. -/
theorem authenticate_match_returns_principal_witness :
    authenticate kdfDemo (fun _ => some johnRec) credsGood =
      AuthResult.principal johnRec :=
  authenticate_match_returns_principal kdfDemo (fun _ => some johnRec)
    credsGood "john@foalts.org" "foobar" johnRec "100000" "c678"
    "foobar#100000#c678" (by decide) (by decide) (by decide) rfl (by decide)
    (by decide)

/-- Counterexample to claim C5 as stated: the empty credentials object is
missing the email field, yet the validation payload holds two violations
(one per missing field, as the rules are evaluated independently), not
exactly one. -/
theorem validate_missing_both_counterexample :
    lookupField ([] : Credentials) "email" = none ∧
    validate ([] : Credentials) =
      Except.error [requiredViolation "email", requiredViolation "password"] ∧
    (collectViolations ([] : Credentials)).length = 2 := by
  decide

/-- Claim C5 (amended): for every credentials object missing one of the two
fields while the remaining rules all pass, `validate` fails with a payload of
exactly one violation, the `required` violation naming the missing field,
whose record carries exactly the fields `dataPath`, `keyword`, `message`,
`params`, `schemaPath`. -/
theorem validate_missing_required_field (creds : Credentials) :
    (lookupField creds "email" = none → passwordViolations creds = [] →
      extraViolations creds = [] →
      validate creds = Except.error [requiredViolation "email"]) ∧
    (lookupField creds "password" = none → emailViolations creds = [] →
      extraViolations creds = [] →
      validate creds = Except.error [requiredViolation "password"]) := by
  constructor
  · intro he hp hx
    have hemail : emailViolations creds = [requiredViolation "email"] := by
      simp [emailViolations, he]
    simp [validate, collectViolations, hemail, hp, hx]
  · intro hp he hx
    have hpw : passwordViolations creds = [requiredViolation "password"] := by
      simp [passwordViolations, hp]
    simp [validate, collectViolations, he, hpw, hx]

/-- Witness for C5 at the two fixtures of the test file: each single missing
field yields exactly its one `required` violation. -/
theorem validate_missing_required_field_witness :
    validate [("password", Value.vstr "myPassword")] =
      Except.error [requiredViolation "email"] ∧
    validate [("email", Value.vstr "john@jack.com")] =
      Except.error [requiredViolation "password"] :=
  ⟨(validate_missing_required_field [("password", Value.vstr "myPassword")]).1
      (by decide) (by decide) (by decide),
    (validate_missing_required_field [("email", Value.vstr "john@jack.com")]).2
      (by decide) (by decide) (by decide)⟩

/-- Claim C6: the validator evaluates all rules independently and collects
every violation, not just the first - the error payload is the full ordered
concatenation of the per-rule violations, and every failed rule contributes
its violation to the payload. -/
theorem validate_collects_every_violation (creds : Credentials)
    (errs : List Violation)
    (h : validate creds = Except.error errs) :
    errs = emailViolations creds ++ passwordViolations creds ++
      extraViolations creds ∧
    (lookupField creds "email" = none → requiredViolation "email" ∈ errs) ∧
    (∀ v, lookupField creds "email" = some v → (∀ s, v ≠ Value.vstr s) →
      typeViolation "email" ∈ errs) ∧
    (∀ s, lookupField creds "email" = some (Value.vstr s) →
      isEmailFormat s = false → formatEmailViolation ∈ errs) ∧
    (lookupField creds "password" = none →
      requiredViolation "password" ∈ errs) ∧
    (∀ v, lookupField creds "password" = some v → (∀ s, v ≠ Value.vstr s) →
      typeViolation "password" ∈ errs) ∧
    (∀ k v, (k, v) ∈ creds → k ≠ "email" → k ≠ "password" →
      additionalViolation k ∈ errs) := by
  have herrs : errs = collectViolations creds := by
    unfold validate at h
    cases hc : collectViolations creds with
    | nil => rw [hc] at h; simp at h
    | cons c rest =>
      rw [hc] at h
      simp only [Except.error.injEq] at h
      exact h.symm
  subst herrs
  refine ⟨rfl, ?_, ?_, ?_, ?_, ?_, ?_⟩
  · intro he
    simp [collectViolations, emailViolations, he]
  · intro v hv hnstr
    cases v with
    | vstr s => exact absurd rfl (hnstr s)
    | vnum n => simp [collectViolations, emailViolations, hv]
    | vbool b => simp [collectViolations, emailViolations, hv]
    | vnull => simp [collectViolations, emailViolations, hv]
  · intro s hs hfmt
    simp [collectViolations, emailViolations, hs, hfmt]
  · intro hp
    simp [collectViolations, passwordViolations, hp]
  · intro v hv hnstr
    cases v with
    | vstr s => exact absurd rfl (hnstr s)
    | vnum n => simp [collectViolations, passwordViolations, hv]
    | vbool b => simp [collectViolations, passwordViolations, hv]
    | vnull => simp [collectViolations, passwordViolations, hv]
  · intro k v hkv hke hkp
    have hmem : (k, v) ∈ creds.filter
        (fun p => p.1 ≠ "email" && p.1 ≠ "password") := by
      simp [List.mem_filter, hkv, hke, hkp]
    have hadd : additionalViolation k ∈ extraViolations creds :=
      List.mem_map_of_mem (fun p => additionalViolation p.1) hmem
    simp only [collectViolations, List.mem_append]
    exact Or.inr hadd

/-- Witness for C6 at a concrete object violating three rules at once
(missing email, boolean password, extra key `foo`): all three violations are
in the payload. -/
theorem validate_collects_every_violation_witness :
    requiredViolation "email" ∈ errsMulti ∧
    typeViolation "password" ∈ errsMulti ∧
    additionalViolation "foo" ∈ errsMulti := by
  have h := validate_collects_every_violation credsMulti errsMulti (by decide)
  exact ⟨h.2.1 (by decide),
    h.2.2.2.2.2.1 (Value.vbool true) (by decide) (fun s hs => Value.noConfusion hs),
    h.2.2.2.2.2.2 "foo" (Value.vstr "bar") (by decide) (by decide) (by decide)⟩

/-- Claim C7: for every syntactically and semantically valid credentials
object (string email in email format, string password, no extra keys),
`validate` returns the input unchanged. -/
theorem validate_identity_on_valid (creds : Credentials) (s p : String)
    (hemail : lookupField creds "email" = some (Value.vstr s))
    (hfmt : isEmailFormat s = true)
    (hpw : lookupField creds "password" = some (Value.vstr p))
    (hkeys : ∀ q ∈ creds, q.1 = "email" ∨ q.1 = "password") :
    validate creds = Except.ok creds := by
  have he : emailViolations creds = [] := by
    simp [emailViolations, hemail, hfmt]
  have hp : passwordViolations creds = [] := by
    simp [passwordViolations, hpw]
  have hx : extraViolations creds = [] := by
    unfold extraViolations
    have hfil : creds.filter (fun q => q.1 ≠ "email" && q.1 ≠ "password") = [] := by
      rw [List.filter_eq_nil_iff]
      intro a ha
      rcases hkeys a ha with h | h <;> simp [h]
    rw [hfil]
    rfl
  simp [validate, collectViolations, he, hp, hx]

/-- Witness for C7 at the valid fixture of the test file. -/
theorem validate_identity_on_valid_witness :
    validate [("email", Value.vstr "john@jack.com"),
        ("password", Value.vstr "myPassword")] =
      Except.ok [("email", Value.vstr "john@jack.com"),
        ("password", Value.vstr "myPassword")] :=
  validate_identity_on_valid
    [("email", Value.vstr "john@jack.com"), ("password", Value.vstr "myPassword")]
    "john@jack.com" "myPassword" (by decide) (by decide) (by decide) (by decide)

/-- Claim C8: authentication is deterministic and idempotent - it is a pure
function of the credentials plus the lookup collaborator, so two calls with
identical inputs against the same stored state yield identical results. -/
theorem authenticate_deterministic
    (kdf : String → String → String → String)
    (findByEmail : String → Option UserRec) (creds : Credentials) :
    (authenticateTwice kdf findByEmail creds).1 =
      (authenticateTwice kdf findByEmail creds).2 := rfl

/-- Claim C9: for every `RestController` by-id operation with its collection
method defined, a rejection with an `ObjectDoesNotExist` error yields an
`HttpResponseNotFound`, and a rejection with any other error is rethrown as
that same error unchanged - never swallowed, never converted to a
response. -/
theorem restController_byId_error_routing {B Q C E : Type}
    (isODNE : E → Bool) (getQuery : Context B → Q) (ctx : Context B) (err : E)
    (removeOne : IdQuery Q → MethodOutcome C E)
    (findOne : IdQuery Q → MethodOutcome C E)
    (updatePatch updatePut : IdQuery Q → B → MethodOutcome C E)
    (hrem : removeOne ⟨getQuery ctx, ctx.paramsId⟩ = MethodOutcome.rejects err)
    (hfind : findOne ⟨getQuery ctx, ctx.paramsId⟩ = MethodOutcome.rejects err)
    (hpatch : updatePatch ⟨getQuery ctx, ctx.paramsId⟩ ctx.body =
      MethodOutcome.rejects err)
    (hput : updatePut ⟨getQuery ctx, ctx.paramsId⟩ ctx.body =
      MethodOutcome.rejects err) :
    (isODNE err = true →
      deleteById isODNE getQuery (some removeOne) ctx =
        ActionResult.response HttpResponse.notFound ∧
      getById isODNE getQuery (some findOne) ctx =
        ActionResult.response HttpResponse.notFound ∧
      patchById isODNE getQuery (some updatePatch) ctx =
        ActionResult.response HttpResponse.notFound ∧
      putById isODNE getQuery (some updatePut) ctx =
        ActionResult.response HttpResponse.notFound) ∧
    (isODNE err = false →
      deleteById isODNE getQuery (some removeOne) ctx =
        ActionResult.rejected err ∧
      getById isODNE getQuery (some findOne) ctx =
        ActionResult.rejected err ∧
      patchById isODNE getQuery (some updatePatch) ctx =
        ActionResult.rejected err ∧
      putById isODNE getQuery (some updatePut) ctx =
        ActionResult.rejected err) := by
  constructor <;> intro hodne <;>
    exact ⟨by simp [deleteById, hrem, hodne],
      by simp [getById, hfind, hodne],
      by simp [patchById, hpatch, hodne],
      by simp [putById, hput, hodne]⟩

/-- Witness for C9 at concrete collections: one rejecting an
`ObjectDoesNotExist` error for every operation, one rejecting a different
error for every operation. -/
theorem restController_byId_error_routing_witness :
    (deleteById (fun b => b) unitQuery (some rejectsODNE) ctxDemo =
        ActionResult.response HttpResponse.notFound ∧
      getById (fun b => b) unitQuery (some rejectsODNE) ctxDemo =
        ActionResult.response HttpResponse.notFound ∧
      patchById (fun b => b) unitQuery (some rejectsODNEBody) ctxDemo =
        ActionResult.response HttpResponse.notFound ∧
      putById (fun b => b) unitQuery (some rejectsODNEBody) ctxDemo =
        ActionResult.response HttpResponse.notFound) ∧
    (deleteById (fun b => b) unitQuery (some rejectsOther) ctxDemo =
        ActionResult.rejected false ∧
      getById (fun b => b) unitQuery (some rejectsOther) ctxDemo =
        ActionResult.rejected false ∧
      patchById (fun b => b) unitQuery (some rejectsOtherBody) ctxDemo =
        ActionResult.rejected false ∧
      putById (fun b => b) unitQuery (some rejectsOtherBody) ctxDemo =
        ActionResult.rejected false) :=
  ⟨(restController_byId_error_routing (fun b => b) unitQuery ctxDemo true
      rejectsODNE rejectsODNE rejectsODNEBody rejectsODNEBody
      rfl rfl rfl rfl).1 rfl,
    (restController_byId_error_routing (fun b => b) unitQuery ctxDemo false
      rejectsOther rejectsOther rejectsOtherBody rejectsOtherBody
      rfl rfl rfl rfl).2 rfl⟩

/-- Claim C10: at the example login endpoint, an unknown email and a wrong
password both produce the identical response, an `HttpResponseRedirect` to
`/login?invalid_credentials=true` with no session cookie, so the two causes
are observationally equal in the response value. -/
theorem login_uniform_invalid_credentials
    (kdf : String → String → String → String)
    (findA findB : String → Option UserRec) (sessionToken : UserRec → String)
    (emailA passwordA emailB passwordB : String) (u : UserRec)
    (hA : findA emailA = none)
    (hB : findB emailB = some u)
    (hmismatch : verifyPassword kdf passwordB u.password = Except.ok false) :
    login kdf findA sessionToken emailA passwordA =
      LoginResult.response ⟨"/login?invalid_credentials=true", none⟩ ∧
    login kdf findB sessionToken emailB passwordB =
      LoginResult.response ⟨"/login?invalid_credentials=true", none⟩ ∧
    login kdf findA sessionToken emailA passwordA =
      login kdf findB sessionToken emailB passwordB := by
  refine ⟨?_, ?_, ?_⟩ <;> simp [login, hA, hB, hmismatch]

/-- Witness for C10 at concrete inputs: a lookup that finds no user and a
lookup that finds a user whose digest does not match the supplied password
produce the same redirect. -/
theorem login_uniform_invalid_credentials_witness :
    login kdfDemo (fun _ => none) sessionTokenDemo "jack2@foalts.org" "foo" =
      LoginResult.response ⟨"/login?invalid_credentials=true", none⟩ ∧
    login kdfDemo (fun _ => some johnRec) sessionTokenDemo "john@foalts.org"
        "wrongPassword" =
      LoginResult.response ⟨"/login?invalid_credentials=true", none⟩ ∧
    login kdfDemo (fun _ => none) sessionTokenDemo "jack2@foalts.org" "foo" =
      login kdfDemo (fun _ => some johnRec) sessionTokenDemo "john@foalts.org"
        "wrongPassword" :=
  login_uniform_invalid_credentials kdfDemo (fun _ => none)
    (fun _ => some johnRec) sessionTokenDemo "jack2@foalts.org" "foo"
    "john@foalts.org" "wrongPassword" johnRec rfl rfl (by decide)

end Foal
